import Mathlib

/-!
Verification development for the zerodha-mcp repository.

The repository is a small trading proxy: a Flask server
(`kite_flask_tools_server.py`) holds one global `KiteConnect` session and
exposes privileged REST endpoints behind a uniform authentication gate; a
FastAPI server (`main.py`) handles the OAuth-style login redirect; two
line-identical client modules (`kite_flask.py`,
`manager/tools/kite_tools.py`) wrap every route behind `call_api`.

This file shallowly embeds those components: the mutable globals become
explicit state records, each HTTP handler becomes a function from state and
request data to (new state, HTTP response, list of broker operations
invoked), and the third-party broker (the `kiteconnect` SDK's network
calls) is an oracle parameter of type `Except String _` supplied per call.
-/

/-- Minimal JSON value type for request/response bodies. -/
inductive Json where
  | null : Json
  | str : String → Json
  | num : Int → Json
  | bool : Bool → Json
  | arr : List Json → Json
  | obj : List (String × Json) → Json

/-- First-match association-list lookup (Python dict access, unique keys). -/
def lookupAssoc {α : Type} : List (String × α) → String → Option α
  | [], _ => none
  | (k, v) :: rest, key => if k == key then some v else lookupAssoc rest key

/-- Replace the value stored under a key (Python `d[k] = v` on a present key). -/
def updateAssoc {α : Type} (l : List (String × α)) (key : String) (v : α) :
    List (String × α) :=
  l.map fun kv => if kv.1 == key then (kv.1, v) else kv

/-- Python truthiness of an optional string: `None` and `""` are falsy. -/
def strTruthy : Option String → Bool
  | none => false
  | some s => !s.isEmpty

/-- Python truthiness of an optional dict (`request.get_json()` result):
`None` and the empty dict are falsy. String-valued JSON bodies suffice for
every behaviour the handlers inspect. -/
def dictTruthy : Option (List (String × String)) → Bool
  | none => false
  | some l => !l.isEmpty

/-- Model of Python `str.lower()` (ASCII case folding, which covers the
`status` values compared by the redirect handler). -/
def lowerStr (s : String) : String :=
  String.mk (s.data.map Char.toLower)

/-- Boolean prefix test on character lists. -/
def isPrefixOfCL : List Char → List Char → Bool
  | [], _ => true
  | _ :: _, [] => false
  | a :: as, b :: bs => a == b && isPrefixOfCL as bs

/-- Boolean substring test on character lists: the needle is a prefix of
some suffix of the haystack. -/
def containsSubCL (needle : List Char) : List Char → Bool
  | [] => isPrefixOfCL needle []
  | c :: rest => isPrefixOfCL needle (c :: rest) || containsSubCL needle rest

/-- Boolean substring test on strings. -/
def strContains (hay needle : String) : Bool :=
  containsSubCL needle.data hay.data

/-- Split a character list at every occurrence of a separator character
(the fixed literal separators of the two `strptime` formats). -/
def splitOnChar (c : Char) : List Char → List (List Char)
  | [] => [[]]
  | a :: rest =>
    match splitOnChar c rest with
    | [] => if a == c then [[], []] else [[a]]
    | g :: gs => if a == c then [] :: g :: gs else (a :: g) :: gs

/-- Numeric value of a digit sequence. -/
def digitsVal (cs : List Char) : Nat :=
  cs.foldl (fun n c => 10 * n + (c.toNat - 48)) 0

/-- Non-empty and all decimal digits. -/
def allDigits (cs : List Char) : Bool :=
  !cs.isEmpty && cs.all Char.isDigit

/-- `%Y` in CPython `_strptime`: exactly four digits. -/
def okYear (cs : List Char) : Bool :=
  cs.length == 4 && cs.all Char.isDigit

/-- `%m`: one digit `1-9` or two digits with value `01..12`. -/
def okMonth (cs : List Char) : Bool :=
  allDigits cs &&
    ((cs.length == 1 && decide (1 ≤ digitsVal cs)) ||
     (cs.length == 2 && decide (1 ≤ digitsVal cs) && decide (digitsVal cs ≤ 12)))

/-- `%d`: one digit `1-9` or two digits with value `01..31`. -/
def okDay (cs : List Char) : Bool :=
  allDigits cs &&
    ((cs.length == 1 && decide (1 ≤ digitsVal cs)) ||
     (cs.length == 2 && decide (1 ≤ digitsVal cs) && decide (digitsVal cs ≤ 31)))

/-- `%H`: one digit, or two digits with value `00..23`. -/
def okHour (cs : List Char) : Bool :=
  allDigits cs &&
    (cs.length == 1 || (cs.length == 2 && decide (digitsVal cs ≤ 23)))

/-- `%M` and `%S`: one digit, or two digits with value `00..59`. -/
def okMinSec (cs : List Char) : Bool :=
  allDigits cs &&
    (cs.length == 1 || (cs.length == 2 && decide (digitsVal cs ≤ 59)))

/-- Gregorian leap year, as used by `datetime`. -/
def isLeapYear (y : Nat) : Bool :=
  (y % 4 == 0 && y % 100 != 0) || y % 400 == 0

/-- Days in a month, as validated by the `datetime`/`date` constructors. -/
def daysInMonth (y m : Nat) : Nat :=
  if m == 2 then (if isLeapYear y then 29 else 28)
  else if m == 4 || m == 6 || m == 9 || m == 11 then 30
  else 31

/-- A calendar date (`datetime.date`). -/
structure Date where
  year : Nat
  month : Nat
  day : Nat
deriving Repr, DecidableEq

/-- A timestamp (`datetime.datetime`). -/
structure DateTime where
  year : Nat
  month : Nat
  day : Nat
  hour : Nat
  minute : Nat
  second : Nat
deriving Repr, DecidableEq

/-- `datetime.date(y, m, d)` constructor validity: year at least `MINYEAR`
and the day within the month (field ranges are already enforced by the
`strptime` field patterns). -/
def mkDate (y m d : Nat) : Option Date :=
  if 1 ≤ y ∧ d ≤ daysInMonth y m then some ⟨y, m, d⟩ else none

/-- `datetime.datetime(...)` constructor validity. -/
def mkDateTime (y m d h mi se : Nat) : Option DateTime :=
  if 1 ≤ y ∧ d ≤ daysInMonth y m then some ⟨y, m, d, h, mi, se⟩ else none

/-- `datetime.datetime.strptime(s, "%Y-%m-%d %H:%M:%S")` as a total
function (`none` stands for `ValueError`). The whole string must match:
four-digit year, 1-2 digit month/day/hour/minute/second within the
CPython `_strptime` field patterns, joined by `-`, a whitespace run (the
format's single space compiles to `\s+`), and `:`; then the `datetime`
constructor validates the calendar date. -/
def strptime_YmdHMS (s : String) : Option DateTime :=
  let cs := s.data
  let dateCs := cs.takeWhile fun c => !c.isWhitespace
  let rest := cs.dropWhile fun c => !c.isWhitespace
  let wsCs := rest.takeWhile fun c => c.isWhitespace
  let timeCs := rest.dropWhile fun c => c.isWhitespace
  if wsCs.isEmpty || timeCs.any (fun c => c.isWhitespace) then none
  else
    match splitOnChar '-' dateCs, splitOnChar ':' timeCs with
    | [y, m, d], [h, mi, se] =>
      if okYear y && okMonth m && okDay d && okHour h && okMinSec mi && okMinSec se then
        mkDateTime (digitsVal y) (digitsVal m) (digitsVal d)
          (digitsVal h) (digitsVal mi) (digitsVal se)
      else none
    | _, _ => none

/-- `datetime.datetime.strptime(s, "%Y-%m-%d").date()` as a total
function (`none` stands for `ValueError`). -/
def strptime_Ymd (s : String) : Option Date :=
  match splitOnChar '-' s.data with
  | [y, m, d] =>
    if okYear y && okMonth m && okDay d then
      mkDate (digitsVal y) (digitsVal m) (digitsVal d)
    else none
  | _ => none

/-- A `KiteConnect` SDK instance: the api key given to the constructor and
the mutable `access_token` attribute (`None` until set). The api secret is
only ever passed straight to the broker exchange calls, which are oracles
here, so it is not part of the record. -/
structure Kite where
  api_key : Option String
  access_token : Option String
deriving Repr, DecidableEq

/-- `KiteConnect(api_key=...)`: fresh instance, no access token. -/
def KiteConnect (api_key : Option String) : Kite :=
  { api_key := api_key, access_token := none }

/-- `KiteConnect.set_access_token`: plain attribute assignment. -/
def Kite.set_access_token (k : Kite) (token : String) : Kite :=
  { k with access_token := some token }

/-- `KiteConnect.login_url()`: URL computed locally from the api key (no
network call). -/
def Kite.login_url (k : Kite) : String :=
  "https://kite.trade/connect/login?v=3&api_key=" ++ k.api_key.getD ""

/-- The session bundle returned by the broker's `generate_session` /
`renew_access_token` exchanges (the fields the repository reads). -/
structure SessionData where
  access_token : String
  user_id : Option String
  user_name : Option String
  user_shortname : Option String
  email : Option String
  public_token : Option String
  refresh_token : Option String
deriving Repr, DecidableEq

/-- Optional string rendered into JSON (`None` becomes `null`). -/
def optStr : Option String → Json
  | none => Json.null
  | some s => Json.str s

/-- The session bundle as the JSON dict the handlers embed in responses. -/
def SessionData.toJson (sd : SessionData) : Json :=
  Json.obj [("access_token", Json.str sd.access_token),
    ("user_id", optStr sd.user_id), ("user_name", optStr sd.user_name),
    ("user_shortname", optStr sd.user_shortname), ("email", optStr sd.email),
    ("public_token", optStr sd.public_token),
    ("refresh_token", optStr sd.refresh_token)]

/-- Process state of `kite_flask_tools_server.py`: the immutable `API_KEY`
environment value and the mutable `global_kite` variable (initially
`None`). -/
structure ServerState where
  api_key : Option String
  global_kite : Option Kite
deriving Repr, DecidableEq

/-- An HTTP response: status code plus JSON body. -/
structure HttpResponse where
  code : Nat
  body : Json

/-- Parsed value of a historical-data body field after date conversion. -/
inductive DateVal where
  | timestamp : DateTime → DateVal
  | dateOnly : Date → DateVal
deriving Repr, DecidableEq

/-- A historical-data parameter value: still the raw string, or a converted
date. -/
inductive ParamVal where
  | str : String → ParamVal
  | date : DateVal → ParamVal
deriving Repr, DecidableEq

/-- The broker (kiteconnect SDK network) operations a handler can invoke;
the log of these is a handler's observable effect on the broker. -/
inductive BrokerOp where
  | profile | margins | holdings | positions | convert_position
  | place_order | modify_order | cancel_order | exit_order | trades
  | place_gtt | delete_gtt
  | historical_data : List (String × ParamVal) → BrokerOp
  | generate_session | renew_token
deriving Repr, DecidableEq

/-- `jsonify({"status": "error", "message": msg})`. -/
def errEnv (msg : String) : Json :=
  Json.obj [("status", Json.str "error"), ("message", Json.str msg)]

/-- `jsonify({"status": "success", "message": msg})`. -/
def okMsgEnv (msg : String) : Json :=
  Json.obj [("status", Json.str "success"), ("message", Json.str msg)]

/-- `jsonify({"status": "success", "data": d})`. -/
def okDataEnv (d : Json) : Json :=
  Json.obj [("status", Json.str "success"), ("data", d)]

/-- The message of the authentication gate. -/
def authErrorMsg : String := "Not authenticated. Please login first."

/-- The gate's full response: HTTP 401 with the error envelope. -/
def authResp : HttpResponse := ⟨401, errEnv authErrorMsg⟩

/-- Python truthiness of `global_kite and global_kite.access_token`: the
instance must exist and its token be a non-empty string. -/
def kiteAuthenticated : Option Kite → Bool
  | none => false
  | some k => strTruthy k.access_token

/-- Read a string field of a JSON object (used to state properties about
response envelopes). -/
def Json.getStrField (j : Json) (key : String) : Option String :=
  match j with
  | Json.obj fields =>
    match lookupAssoc fields key with
    | some (Json.str s) => some s
    | _ => none
  | _ => none

namespace FlaskServer

/-- `check_authentication` of kite_flask_tools_server.py. The source
returns a triple `(is_authenticated, error_response, 401)`; here `none`
stands for the authenticated triple `(True, None, None)` and `some r` for
`(False, r, 401)`. -/
def check_authentication (st : ServerState) : Option HttpResponse :=
  if !(kiteAuthenticated st.global_kite) then some authResp else none

/-- `GET /api/auth/check`. On failure the source returns the error
envelope without the 401 code (Flask then defaults to HTTP 200). -/
def check_auth_endpoint (st : ServerState) : HttpResponse :=
  match check_authentication st with
  | some err => ⟨200, err.body⟩
  | none => ⟨200, okMsgEnv "Session is authenticated."⟩

/-- `GET /login`: with no configured api key, error; otherwise replaces
`global_kite` with a fresh `KiteConnect` instance and returns its login
URL (computed locally, no broker network call). -/
def login (st : ServerState) : ServerState × HttpResponse × List BrokerOp :=
  if !(strTruthy st.api_key) then
    (st, ⟨500, errEnv "API Key not configured."⟩, [])
  else
    let k := KiteConnect st.api_key
    ({ st with global_kite := some k },
     ⟨200, Json.obj [("status", Json.str "success"),
        ("login_url", Json.str k.login_url)]⟩,
     [])

/-- `GET /trade/redirect` of the Flask server. Reads only
`request_token` from the query (any `status`/`action`/`type` parameters
are never consulted); `gen` is the broker's answer to
`generate_session(request_token, api_secret)`. -/
def trade_redirect (st : ServerState) (query : List (String × String))
    (gen : Except String SessionData) :
    ServerState × HttpResponse × List BrokerOp :=
  let request_token := lookupAssoc query "request_token"
  if !(strTruthy request_token) then
    (st, ⟨400, errEnv "No request_token found in callback."⟩, [])
  else
    match st.global_kite with
    | none => (st, ⟨500, errEnv "KiteConnect instance not initialized."⟩, [])
    | some k =>
      match gen with
      | Except.ok sd =>
        ({ st with global_kite := some (k.set_access_token sd.access_token) },
         ⟨200, Json.obj [("status", Json.str "success"),
            ("message", Json.str "Authentication successful!"),
            ("data", sd.toJson)]⟩,
         [BrokerOp.generate_session])
      | Except.error e =>
        (st, ⟨500, errEnv ("Authentication failed: " ++ e)⟩,
         [BrokerOp.generate_session])

/-- `POST /api/auth/token/set`: no broker call; creates the instance when
absent, then overwrites its access token with the supplied value. -/
def set_access_token (st : ServerState)
    (params : Option (List (String × String))) :
    ServerState × HttpResponse × List BrokerOp :=
  if !(dictTruthy params) || (lookupAssoc (params.getD []) "access_token").isNone then
    (st, ⟨400, errEnv "Missing \x27access_token\x27 in request body."⟩, [])
  else
    let tok := (lookupAssoc (params.getD []) "access_token").getD ""
    let k := match st.global_kite with
      | none => KiteConnect st.api_key
      | some k => k
    ({ st with global_kite := some (k.set_access_token tok) },
     ⟨200, okMsgEnv "Access token set successfully."⟩, [])

/-- `POST /api/auth/token/renew`: requires a body with `refresh_token` and
an existing `global_kite`; `renew` is the broker's answer to
`renew_access_token(refresh_token, api_secret)`. -/
def renew_access_token (st : ServerState)
    (params : Option (List (String × String)))
    (renew : Except String SessionData) :
    ServerState × HttpResponse × List BrokerOp :=
  if !(dictTruthy params) || (lookupAssoc (params.getD []) "refresh_token").isNone then
    (st, ⟨400, errEnv "Missing \x27refresh_token\x27 in request body."⟩, [])
  else
    match st.global_kite with
    | none => (st, ⟨500, errEnv "KiteConnect instance not initialized."⟩, [])
    | some k =>
      match renew with
      | Except.ok sd =>
        ({ st with global_kite := some (k.set_access_token sd.access_token) },
         ⟨200, okDataEnv sd.toJson⟩, [BrokerOp.renew_token])
      | Except.error e => (st, ⟨500, errEnv e⟩, [BrokerOp.renew_token])

/-- `GET /api/user/profile`. `b` is the broker's answer to
`global_kite.profile()`. -/
def get_profile (st : ServerState) (b : Except String Json) :
    ServerState × HttpResponse × List BrokerOp :=
  match check_authentication st with
  | some err => (st, err, [])
  | none =>
    match b with
    | Except.ok d => (st, ⟨200, okDataEnv d⟩, [BrokerOp.profile])
    | Except.error e => (st, ⟨500, errEnv e⟩, [BrokerOp.profile])

/-- `GET /api/user/margins`: optional `segment` query parameter passed
through to the broker. -/
def get_margins (st : ServerState) (segment : Option String)
    (b : Except String Json) : ServerState × HttpResponse × List BrokerOp :=
  match check_authentication st with
  | some err => (st, err, [])
  | none =>
    match segment, b with
    | _, Except.ok d => (st, ⟨200, okDataEnv d⟩, [BrokerOp.margins])
    | _, Except.error e => (st, ⟨500, errEnv e⟩, [BrokerOp.margins])

/-- `GET /api/portfolio/holdings`. -/
def get_holdings (st : ServerState) (b : Except String Json) :
    ServerState × HttpResponse × List BrokerOp :=
  match check_authentication st with
  | some err => (st, err, [])
  | none =>
    match b with
    | Except.ok d => (st, ⟨200, okDataEnv d⟩, [BrokerOp.holdings])
    | Except.error e => (st, ⟨500, errEnv e⟩, [BrokerOp.holdings])

/-- `GET /api/portfolio/positions`. -/
def get_positions (st : ServerState) (b : Except String Json) :
    ServerState × HttpResponse × List BrokerOp :=
  match check_authentication st with
  | some err => (st, err, [])
  | none =>
    match b with
    | Except.ok d => (st, ⟨200, okDataEnv d⟩, [BrokerOp.positions])
    | Except.error e => (st, ⟨500, errEnv e⟩, [BrokerOp.positions])

/-- `PUT /api/portfolio/positions/convert`: auth gate, then non-empty body
check, then broker call with the body passed through. -/
def convert_position (st : ServerState)
    (params : Option (List (String × String))) (b : Except String Json) :
    ServerState × HttpResponse × List BrokerOp :=
  match check_authentication st with
  | some err => (st, err, [])
  | none =>
    if !(dictTruthy params) then
      (st, ⟨400, errEnv "Request body cannot be empty."⟩, [])
    else
      match b with
      | Except.ok d => (st, ⟨200, okDataEnv d⟩, [BrokerOp.convert_position])
      | Except.error e => (st, ⟨500, errEnv e⟩, [BrokerOp.convert_position])

/-- `POST /api/orders/place`: the broker returns the new order id. -/
def place_order (st : ServerState)
    (params : Option (List (String × String))) (b : Except String Json) :
    ServerState × HttpResponse × List BrokerOp :=
  match check_authentication st with
  | some err => (st, err, [])
  | none =>
    if !(dictTruthy params) then
      (st, ⟨400, errEnv "Request body cannot be empty."⟩, [])
    else
      match b with
      | Except.ok oid =>
        (st, ⟨200, okDataEnv (Json.obj [("order_id", oid)])⟩, [BrokerOp.place_order])
      | Except.error e => (st, ⟨500, errEnv e⟩, [BrokerOp.place_order])

/-- `PUT /api/orders/modify`. -/
def modify_order (st : ServerState)
    (params : Option (List (String × String))) (b : Except String Json) :
    ServerState × HttpResponse × List BrokerOp :=
  match check_authentication st with
  | some err => (st, err, [])
  | none =>
    if !(dictTruthy params) then
      (st, ⟨400, errEnv "Request body cannot be empty."⟩, [])
    else
      match b with
      | Except.ok oid =>
        (st, ⟨200, okDataEnv (Json.obj [("order_id", oid)])⟩, [BrokerOp.modify_order])
      | Except.error e => (st, ⟨500, errEnv e⟩, [BrokerOp.modify_order])

/-- `DELETE /api/orders/cancel/<variety>/<order_id>` with optional
`parent_order_id` query parameter. -/
def cancel_order (st : ServerState) (variety order_id : String)
    (parent_order_id : Option String) (b : Except String Json) :
    ServerState × HttpResponse × List BrokerOp :=
  match check_authentication st with
  | some err => (st, err, [])
  | none =>
    match variety, order_id, parent_order_id, b with
    | _, _, _, Except.ok oid =>
      (st, ⟨200, okDataEnv (Json.obj [("order_id", oid)])⟩, [BrokerOp.cancel_order])
    | _, _, _, Except.error e => (st, ⟨500, errEnv e⟩, [BrokerOp.cancel_order])

/-- `DELETE /api/orders/exit/<variety>/<order_id>`. -/
def exit_order (st : ServerState) (variety order_id : String)
    (parent_order_id : Option String) (b : Except String Json) :
    ServerState × HttpResponse × List BrokerOp :=
  match check_authentication st with
  | some err => (st, err, [])
  | none =>
    match variety, order_id, parent_order_id, b with
    | _, _, _, Except.ok oid =>
      (st, ⟨200, okDataEnv (Json.obj [("order_id", oid)])⟩, [BrokerOp.exit_order])
    | _, _, _, Except.error e => (st, ⟨500, errEnv e⟩, [BrokerOp.exit_order])

/-- `GET /api/trades`. -/
def get_trades (st : ServerState) (b : Except String Json) :
    ServerState × HttpResponse × List BrokerOp :=
  match check_authentication st with
  | some err => (st, err, [])
  | none =>
    match b with
    | Except.ok d => (st, ⟨200, okDataEnv d⟩, [BrokerOp.trades])
    | Except.error e => (st, ⟨500, errEnv e⟩, [BrokerOp.trades])

/-- `POST /api/gtt/place`. -/
def place_gtt (st : ServerState)
    (params : Option (List (String × String))) (b : Except String Json) :
    ServerState × HttpResponse × List BrokerOp :=
  match check_authentication st with
  | some err => (st, err, [])
  | none =>
    if !(dictTruthy params) then
      (st, ⟨400, errEnv "Request body cannot be empty."⟩, [])
    else
      match b with
      | Except.ok d => (st, ⟨200, okDataEnv d⟩, [BrokerOp.place_gtt])
      | Except.error e => (st, ⟨500, errEnv e⟩, [BrokerOp.place_gtt])

/-- `DELETE /api/gtt/delete/<int:trigger_id>`. -/
def delete_gtt (st : ServerState) (trigger_id : Int) (b : Except String Json) :
    ServerState × HttpResponse × List BrokerOp :=
  match check_authentication st with
  | some err => (st, err, [])
  | none =>
    match trigger_id, b with
    | _, Except.ok d => (st, ⟨200, okDataEnv d⟩, [BrokerOp.delete_gtt])
    | _, Except.error e => (st, ⟨500, errEnv e⟩, [BrokerOp.delete_gtt])

/-- Modelled `str(e)` of the `ValueError` raised when the fallback
`%Y-%m-%d` parse also fails (CPython words it as either a format mismatch
or unconverted trailing data; only that it is a parse-error message
matters to any route behaviour). -/
def dateParseErrorMsg (s : String) : String :=
  "time data " ++ s ++ " does not match format %Y-%m-%d"

/-- Date conversion of one historical-data field: try
`%Y-%m-%d %H:%M:%S`; on `ValueError` fall back to `%Y-%m-%d` plus
`.date()`; the fallback's `ValueError` escapes to the route's outer
handler (the `Except.error` case). -/
def convert_date_field (s : String) : Except String DateVal :=
  match strptime_YmdHMS s with
  | some dt => Except.ok (DateVal.timestamp dt)
  | none =>
    match strptime_Ymd s with
    | some d => Except.ok (DateVal.dateOnly d)
    | none => Except.error (dateParseErrorMsg s)

/-- Convert one named field of the body if present (skipped when absent;
a field is only ever converted once, so the already-converted case cannot
arise and is kept only for totality). -/
def convert_one_date (p : List (String × ParamVal)) (field : String) :
    Except String (List (String × ParamVal)) :=
  match lookupAssoc p field with
  | none => Except.ok p
  | some (ParamVal.date _) => Except.ok p
  | some (ParamVal.str s) =>
    match convert_date_field s with
    | Except.ok v => Except.ok (updateAssoc p field (ParamVal.date v))
    | Except.error e => Except.error e

/-- The loop `for date_field in ["from_date", "to_date"]`. -/
def convert_date_params (p : List (String × ParamVal)) :
    Except String (List (String × ParamVal)) :=
  match convert_one_date p "from_date" with
  | Except.error e => Except.error e
  | Except.ok p1 => convert_one_date p1 "to_date"

/-- `POST /api/market/historical`: auth gate, body check, date-field
conversion (a conversion failure is caught by the route's outer handler
and returned as a 500 error envelope without touching the broker), then
the broker call with the converted body. -/
def get_historical_data (st : ServerState)
    (params : Option (List (String × String))) (b : Except String Json) :
    ServerState × HttpResponse × List BrokerOp :=
  match check_authentication st with
  | some err => (st, err, [])
  | none =>
    if !(dictTruthy params) then
      (st, ⟨400, errEnv "Request body cannot be empty."⟩, [])
    else
      let p0 : List (String × ParamVal) :=
        (params.getD []).map fun kv => (kv.1, ParamVal.str kv.2)
      match convert_date_params p0 with
      | Except.error e => (st, ⟨500, errEnv e⟩, [])
      | Except.ok p1 =>
        match b with
        | Except.ok d => (st, ⟨200, okDataEnv d⟩, [BrokerOp.historical_data p1])
        | Except.error e => (st, ⟨500, errEnv e⟩, [BrokerOp.historical_data p1])

end FlaskServer

/-- One inbound HTTP request to the Flask server, together with the
broker's answer for any broker call the handler might make. -/
inductive Call where
  | check_auth : Call
  | login : Call
  | redirect : List (String × String) → Except String SessionData → Call
  | token_set : Option (List (String × String)) → Call
  | token_renew : Option (List (String × String)) → Except String SessionData → Call
  | profile : Except String Json → Call
  | margins : Option String → Except String Json → Call
  | holdings : Except String Json → Call
  | positions : Except String Json → Call
  | convert : Option (List (String × String)) → Except String Json → Call
  | orders_place : Option (List (String × String)) → Except String Json → Call
  | orders_modify : Option (List (String × String)) → Except String Json → Call
  | orders_cancel : String → String → Option String → Except String Json → Call
  | orders_exit : String → String → Option String → Except String Json → Call
  | trades : Except String Json → Call
  | gtt_place : Option (List (String × String)) → Except String Json → Call
  | gtt_delete : Int → Except String Json → Call
  | historical : Option (List (String × String)) → Except String Json → Call

/-- Dispatch of one inbound request to its Flask route handler. -/
def step (st : ServerState) : Call → ServerState × HttpResponse × List BrokerOp
  | Call.check_auth => (st, FlaskServer.check_auth_endpoint st, [])
  | Call.login => FlaskServer.login st
  | Call.redirect q gen => FlaskServer.trade_redirect st q gen
  | Call.token_set p => FlaskServer.set_access_token st p
  | Call.token_renew p r => FlaskServer.renew_access_token st p r
  | Call.profile b => FlaskServer.get_profile st b
  | Call.margins seg b => FlaskServer.get_margins st seg b
  | Call.holdings b => FlaskServer.get_holdings st b
  | Call.positions b => FlaskServer.get_positions st b
  | Call.convert p b => FlaskServer.convert_position st p b
  | Call.orders_place p b => FlaskServer.place_order st p b
  | Call.orders_modify p b => FlaskServer.modify_order st p b
  | Call.orders_cancel v oid par b => FlaskServer.cancel_order st v oid par b
  | Call.orders_exit v oid par b => FlaskServer.exit_order st v oid par b
  | Call.trades b => FlaskServer.get_trades st b
  | Call.gtt_place p b => FlaskServer.place_gtt st p b
  | Call.gtt_delete t b => FlaskServer.delete_gtt st t b
  | Call.historical p b => FlaskServer.get_historical_data st p b

/-- Run a sequence of inbound requests, threading the server state. -/
def run (st : ServerState) : List Call → ServerState
  | [] => st
  | c :: cs => run (step st c).1 cs

/-- The four routes whose handlers assign `global_kite` (login, the
redirect callback, manual token set, token renew); every other route only
reads the session. -/
def Call.isSessionWriter : Call → Bool
  | Call.login => true
  | Call.redirect _ _ => true
  | Call.token_set _ => true
  | Call.token_renew _ _ => true
  | _ => false

/-- The redirect query parameters `main.py` stores in
`stored_redirect_params`. -/
structure RedirectParams where
  action : Option String
  type : Option String
  status : Option String
  request_token : String
deriving Repr, DecidableEq

/-- `stored_redirect_params` as a JSON dict. -/
def RedirectParams.toJson (rp : RedirectParams) : Json :=
  Json.obj [("action", optStr rp.action), ("type", optStr rp.type),
    ("status", optStr rp.status), ("request_token", Json.str rp.request_token)]

/-- The `stored_auth_details` dict of main.py as JSON. -/
def SessionData.authDetailsJson (sd : SessionData) : Json :=
  Json.obj [("access_token", Json.str sd.access_token),
    ("user_id", optStr sd.user_id), ("user_name", optStr sd.user_name),
    ("user_shortname", optStr sd.user_shortname), ("email", optStr sd.email),
    ("public_token", optStr sd.public_token),
    ("refresh_token", optStr sd.refresh_token)]

/-- Process state of `main.py`: the module-level `kite` instance (created
at import time) and the module globals `stored_request_token`,
`stored_auth_details`, `stored_redirect_params` (all `None` at start). -/
structure MainState where
  kite : Kite
  stored_request_token : Option String
  stored_auth_details : Option SessionData
  stored_redirect_params : Option RedirectParams
deriving Repr, DecidableEq

namespace MainServer

/-- `GET /trade/redirect` of main.py (FastAPI). `request_token` is a
required query parameter; `action`, `type`, `status` are optional. The
handler first stores the redirect parameters and the request token in the
module globals, then rejects when a truthy `status` is not
case-insensitively "success", and otherwise performs exactly one
`generate_session` exchange (`gen` is the broker's answer); on success it
also sets the kite access token and stores the auth details. The
background 3-second shutdown timer it spawns on success is outside this
state model. -/
def trade_redirect (st : MainState) (request_token : String)
    (action type status : Option String) (gen : Except String SessionData) :
    MainState × HttpResponse × List BrokerOp :=
  let rp : RedirectParams := ⟨action, type, status, request_token⟩
  let st1 : MainState :=
    { st with stored_redirect_params := some rp,
              stored_request_token := some request_token }
  if strTruthy status && !(lowerStr (status.getD "") == "success") then
    (st1,
     ⟨400, Json.obj [("status", Json.str "error"),
        ("message", Json.str ("Login was not successful. Status: " ++ status.getD ""))]⟩,
     [])
  else
    match gen with
    | Except.ok data =>
      let st2 : MainState :=
        { st1 with kite := st1.kite.set_access_token data.access_token,
                   stored_auth_details := some data }
      (st2,
       ⟨200, Json.obj [("status", Json.str "success"),
          ("message", Json.str "Authentication successful! Thank you! Server will close automatically."),
          ("redirect_params", rp.toJson),
          ("kite_data", data.authDetailsJson)]⟩,
       [BrokerOp.generate_session])
    | Except.error e =>
      (st1,
       ⟨400, Json.obj [("status", Json.str "error"),
          ("message", Json.str ("Authentication failed: " ++ e)),
          ("redirect_params", rp.toJson)]⟩,
       [BrokerOp.generate_session])

end MainServer

namespace ToolClient

/-- Base URL of both client modules. -/
def BASE_API_URL : String := "http://127.0.0.1:5000"

/-- The outbound request `call_api` hands to `requests.request`. -/
structure HttpRequest where
  method : String
  url : String
  params : Option (List (String × String))
  json_data : Option Json
  timeout_seconds : Nat

/-- Construction of the outbound request inside `call_api`
(`requests.request(method, url, params=params, json=json_data,
timeout=10)`); this is the only place either client module issues an HTTP
call. -/
def call_api_request (endpoint method : String)
    (params : Option (List (String × String))) (json_data : Option Json) :
    HttpRequest :=
  ⟨method, BASE_API_URL ++ endpoint, params, json_data, 10⟩

/-- The body of an HTTP response as seen by `response.json()`. -/
inductive Body where
  | jsonBody : Json → Body
  | rawBody : String → Body

/-- Outcome of the outbound request, as the exceptions `requests` raises:
a response (any status code), a refused connection (`ConnectionError`), a
connect-phase timeout (`ConnectTimeout`, a subclass of both
`ConnectionError` and `Timeout`), a read timeout (`ReadTimeout`, a
subclass of `Timeout` only), or another `RequestException`; `emsg` is the
exception's `str`. -/
inductive HttpOutcome where
  | response : Nat → Body → HttpOutcome
  | connectionRefused : HttpOutcome
  | connectTimeout : HttpOutcome
  | readTimeout : String → HttpOutcome
  | requestException : String → HttpOutcome

/-- The message of the `except requests.exceptions.ConnectionError`
branch. -/
def connectionErrorMessage (url : String) : String :=
  "Connection Error: Could not connect to the server at " ++ url ++
    ". Is it running?"

/-- Modelled `str(e)` of the `JSONDecodeError` raised by
`response.json()` on a malformed body (a `RequestException` in the
`requests` hierarchy, so it reaches the final `except` branch when raised
on the success path). -/
def jsonDecodeErrMsg (raw : String) : String :=
  "Expecting value: line 1 column 1 (char 0): " ++ raw

/-- `call_api` of kite_flask.py and of manager/tools/kite_tools.py (the
two are line-identical). `raise_for_status` raises `HTTPError` for status
codes 400-599, caught by the `HTTPError` branch, which returns the parsed
error body when it is JSON; `ConnectionError` (including
`ConnectTimeout`) is caught first; everything else lands in the final
`RequestException` branch. -/
def call_api (endpoint method : String)
    (params : Option (List (String × String))) (json_data : Option Json)
    (outcome : HttpOutcome) : Json :=
  let url := BASE_API_URL ++ endpoint
  match method, params, json_data, outcome with
  | _, _, _, HttpOutcome.response code body =>
    if 400 ≤ code && code < 600 then
      match body with
      | Body.jsonBody j => j
      | Body.rawBody text =>
        Json.obj [("status", Json.str "error"),
          ("message", Json.str ("HTTP Error: " ++ toString code ++ " for " ++
            url ++ ". Response: " ++ text))]
    else
      match body with
      | Body.jsonBody j => j
      | Body.rawBody text =>
        Json.obj [("status", Json.str "error"),
          ("message", Json.str ("Request failed: " ++ jsonDecodeErrMsg text))]
  | _, _, _, HttpOutcome.connectionRefused =>
    Json.obj [("status", Json.str "error"),
      ("message", Json.str (connectionErrorMessage url))]
  | _, _, _, HttpOutcome.connectTimeout =>
    Json.obj [("status", Json.str "error"),
      ("message", Json.str (connectionErrorMessage url))]
  | _, _, _, HttpOutcome.readTimeout emsg =>
    Json.obj [("status", Json.str "error"),
      ("message", Json.str ("Request failed: " ++ emsg))]
  | _, _, _, HttpOutcome.requestException emsg =>
    Json.obj [("status", Json.str "error"),
      ("message", Json.str ("Request failed: " ++ emsg))]

/-- `check_authentication_status()`. -/
def check_authentication_status (outcome : HttpOutcome) : Json :=
  call_api "/api/auth/check" "GET" none none outcome

/-- `set_access_token(access_token)`. -/
def set_access_token (access_token : String) (outcome : HttpOutcome) : Json :=
  call_api "/api/auth/token/set" "POST" none
    (some (Json.obj [("access_token", Json.str access_token)])) outcome

/-- `renew_access_token(refresh_token)`. -/
def renew_access_token (refresh_token : String) (outcome : HttpOutcome) : Json :=
  call_api "/api/auth/token/renew" "POST" none
    (some (Json.obj [("refresh_token", Json.str refresh_token)])) outcome

/-- `get_profile()`. -/
def get_profile (outcome : HttpOutcome) : Json :=
  call_api "/api/user/profile" "GET" none none outcome

/-- `get_margins(segment)`. -/
def get_margins (segment : Option String) (outcome : HttpOutcome) : Json :=
  call_api "/api/user/margins" "GET"
    (match segment with
     | some s => if !s.isEmpty then some [("segment", s)] else none
     | none => none) none outcome

/-- `get_holdings()`. -/
def get_holdings (outcome : HttpOutcome) : Json :=
  call_api "/api/portfolio/holdings" "GET" none none outcome

/-- `get_positions()`. -/
def get_positions (outcome : HttpOutcome) : Json :=
  call_api "/api/portfolio/positions" "GET" none none outcome

/-- `convert_position(**kwargs)`. -/
def convert_position (kwargs : Json) (outcome : HttpOutcome) : Json :=
  call_api "/api/portfolio/positions/convert" "PUT" none (some kwargs) outcome

/-- `place_order(**kwargs)`. -/
def place_order (kwargs : Json) (outcome : HttpOutcome) : Json :=
  call_api "/api/orders/place" "POST" none (some kwargs) outcome

/-- `modify_order(**kwargs)`. -/
def modify_order (kwargs : Json) (outcome : HttpOutcome) : Json :=
  call_api "/api/orders/modify" "PUT" none (some kwargs) outcome

/-- `cancel_order(variety, order_id, parent_order_id)`. -/
def cancel_order (variety order_id : String) (parent_order_id : Option String)
    (outcome : HttpOutcome) : Json :=
  call_api ("/api/orders/cancel/" ++ variety ++ "/" ++ order_id) "DELETE"
    (match parent_order_id with
     | some p => if !p.isEmpty then some [("parent_order_id", p)] else none
     | none => none) none outcome

/-- `exit_order(variety, order_id, parent_order_id)`. -/
def exit_order (variety order_id : String) (parent_order_id : Option String)
    (outcome : HttpOutcome) : Json :=
  call_api ("/api/orders/exit/" ++ variety ++ "/" ++ order_id) "DELETE"
    (match parent_order_id with
     | some p => if !p.isEmpty then some [("parent_order_id", p)] else none
     | none => none) none outcome

/-- `get_trades()`. -/
def get_trades (outcome : HttpOutcome) : Json :=
  call_api "/api/trades" "GET" none none outcome

/-- `place_gtt(**kwargs)`. -/
def place_gtt (kwargs : Json) (outcome : HttpOutcome) : Json :=
  call_api "/api/gtt/place" "POST" none (some kwargs) outcome

/-- `delete_gtt(trigger_id)`. -/
def delete_gtt (trigger_id : Nat) (outcome : HttpOutcome) : Json :=
  call_api ("/api/gtt/delete/" ++ toString trigger_id) "DELETE" none none outcome

/-- `get_historical_data(**kwargs)`. -/
def get_historical_data (kwargs : Json) (outcome : HttpOutcome) : Json :=
  call_api "/api/market/historical" "POST" none (some kwargs) outcome

end ToolClient

/-- The statement that every privileged route short-circuits on state
`st` with HTTP 401, the not-authenticated envelope, an unchanged state,
and an empty broker-call log, whatever the request arguments and whatever
the broker would have answered. -/
def allPrivileged401 (st : ServerState) : Prop :=
  ∀ (b : Except String Json) (params : Option (List (String × String)))
    (segment parent_order_id : Option String) (variety order_id : String)
    (trigger_id : Int),
    FlaskServer.get_profile st b = (st, authResp, []) ∧
    FlaskServer.get_margins st segment b = (st, authResp, []) ∧
    FlaskServer.get_holdings st b = (st, authResp, []) ∧
    FlaskServer.get_positions st b = (st, authResp, []) ∧
    FlaskServer.convert_position st params b = (st, authResp, []) ∧
    FlaskServer.place_order st params b = (st, authResp, []) ∧
    FlaskServer.modify_order st params b = (st, authResp, []) ∧
    FlaskServer.cancel_order st variety order_id parent_order_id b = (st, authResp, []) ∧
    FlaskServer.exit_order st variety order_id parent_order_id b = (st, authResp, []) ∧
    FlaskServer.get_trades st b = (st, authResp, []) ∧
    FlaskServer.place_gtt st params b = (st, authResp, []) ∧
    FlaskServer.delete_gtt st trigger_id b = (st, authResp, []) ∧
    FlaskServer.get_historical_data st params b = (st, authResp, [])

/-- A fixed session bundle used as a concrete broker answer. -/
def sd0 : SessionData :=
  ⟨"tok_new", some "AB1234", some "A B", some "A", some "a@b.c",
    some "pub", some "ref"⟩

/-- A kite instance holding an access token from an earlier exchange. -/
def kAuth : Kite := ⟨some "key", some "tok_old"⟩

/-- Flask server state after a successful exchange set `tok_old`. -/
def stAuth : ServerState := ⟨some "key", some kAuth⟩

/-- Flask server state right after `GET /login` (instance exists, no
token yet). -/
def stFresh : ServerState := ⟨some "key", some (KiteConnect (some "key"))⟩

/-- Flask server state at process start (`global_kite = None`). -/
def stInit : ServerState := ⟨some "key", none⟩

/-- main.py state at process start (globals all `None`). -/
def mainSt0 : MainState := ⟨KiteConnect (some "key"), none, none, none⟩

/-- A non-empty string has `isEmpty = false`. -/
theorem isEmpty_false_of_ne (s : String) (h : s ≠ "") : s.isEmpty = false := by
  cases hemp : s.isEmpty
  · rfl
  · exact absurd ((String.isEmpty_iff s).mp hemp) h

/-- A list is a Boolean prefix of itself followed by anything. -/
theorem isPrefixOfCL_self_append (p t : List Char) :
    isPrefixOfCL p (p ++ t) = true := by
  induction p with
  | nil => rfl
  | cons a as ih => simp [isPrefixOfCL, ih]

/-- A Boolean prefix of the haystack is a substring of it. -/
theorem containsSubCL_of_isPrefixOf (needle hay : List Char)
    (h : isPrefixOfCL needle hay = true) : containsSubCL needle hay = true := by
  cases hay with
  | nil => simpa [containsSubCL] using h
  | cons c rest => simp [containsSubCL, h]

/-- The connection-error message of `call_api` always contains the
substring "Connection Error". -/
theorem connectionErrorMessage_contains (url : String) :
    strContains (ToolClient.connectionErrorMessage url) "Connection Error" = true := by
  have hsplit : ("Connection Error: Could not connect to the server at ").data =
      ("Connection Error").data ++ (": Could not connect to the server at ").data := by
    decide
  unfold strContains ToolClient.connectionErrorMessage
  rw [String.data_append, String.data_append, hsplit, List.append_assoc,
    List.append_assoc]
  exact containsSubCL_of_isPrefixOf _ _ (isPrefixOfCL_self_append _ _)

/-- On an unauthenticated state the gate helper returns the 401 error
triple. -/
theorem check_authentication_unauth (st : ServerState)
    (h : kiteAuthenticated st.global_kite = false) :
    FlaskServer.check_authentication st = some authResp := by
  simp [FlaskServer.check_authentication, h]

/-- Every privileged route short-circuits on an unauthenticated state. -/
theorem unauth_gate (st : ServerState)
    (h : kiteAuthenticated st.global_kite = false) : allPrivileged401 st := by
  have hca := check_authentication_unauth st h
  intro b params segment parent_order_id variety order_id trigger_id
  refine ⟨?_, ?_, ?_, ?_, ?_, ?_, ?_, ?_, ?_, ?_, ?_, ?_, ?_⟩ <;>
    simp [FlaskServer.get_profile, FlaskServer.get_margins,
      FlaskServer.get_holdings, FlaskServer.get_positions,
      FlaskServer.convert_position, FlaskServer.place_order,
      FlaskServer.modify_order, FlaskServer.cancel_order,
      FlaskServer.exit_order, FlaskServer.get_trades, FlaskServer.place_gtt,
      FlaskServer.delete_gtt, FlaskServer.get_historical_data, hca]

/-- C1: on any server state that fails the authentication gate (no
`global_kite` or a falsy access token), every privileged endpoint
(profile, margins, holdings, positions, convert-position,
place/modify/cancel/exit order, trades, place/delete GTT, historical
data) returns HTTP 401 with the envelope
`{status: "error", message: "Not authenticated. Please login first."}`,
leaves the state unchanged, and invokes no broker operation. -/
theorem privileged_unauthenticated_short_circuit (st : ServerState)
    (h : kiteAuthenticated st.global_kite = false) : allPrivileged401 st :=
  unauth_gate st h

/-- Witness for C1 at the process-start state. -/
theorem privileged_unauthenticated_short_circuit_witness :
    FlaskServer.place_order stInit (some [("tradingsymbol", "INFY")])
        (Except.ok (Json.str "151220000000000")) = (stInit, authResp, []) :=
  ((privileged_unauthenticated_short_circuit stInit rfl
      (Except.ok (Json.str "151220000000000")) (some [("tradingsymbol", "INFY")])
      none none "regular" "od1" 7).2.2.2.2.2.1)

/-- C10: setting an empty-string access token returns the success
envelope, yet the stored token is `""`, which is Python-falsy, so the
auth-check endpoint still answers with the not-authenticated envelope
and every privileged endpoint still short-circuits with 401: a success
from token-set does not imply the session passes the gate. -/
theorem empty_token_set_succeeds_but_unauthenticated (st : ServerState) :
    (FlaskServer.set_access_token st (some [("access_token", "")])).2.1 =
      ⟨200, okMsgEnv "Access token set successfully."⟩ ∧
    ((FlaskServer.set_access_token st (some [("access_token", "")])).1.global_kite.map
        Kite.access_token) = some (some "") ∧
    kiteAuthenticated
        (FlaskServer.set_access_token st (some [("access_token", "")])).1.global_kite =
      false ∧
    (FlaskServer.check_auth_endpoint
        (FlaskServer.set_access_token st (some [("access_token", "")])).1).body =
      errEnv authErrorMsg ∧
    allPrivileged401 (FlaskServer.set_access_token st (some [("access_token", "")])).1 := by
  obtain ⟨ak, gk⟩ := st
  have hauth : kiteAuthenticated
      (FlaskServer.set_access_token ⟨ak, gk⟩ (some [("access_token", "")])).1.global_kite =
        false := by
    cases gk <;> rfl
  refine ⟨?_, ?_, hauth, ?_, unauth_gate _ hauth⟩ <;> cases gk <;> rfl

/-- C2 counterexample: the Flask server's redirect handler, in the state
left by `GET /login`, given a redirect whose query carries
`status=failed` alongside a request token, still performs the
`generate_session` exchange, overwrites the access token, and answers
with a success envelope. -/
theorem flask_redirect_ignores_status_counterexample :
    (FlaskServer.trade_redirect stFresh
        [("request_token", "rt123"), ("status", "failed")] (Except.ok sd0)).2.2 =
      [BrokerOp.generate_session] ∧
    ((FlaskServer.trade_redirect stFresh
        [("request_token", "rt123"), ("status", "failed")]
        (Except.ok sd0)).1.global_kite.map Kite.access_token) = some (some "tok_new") ∧
    ((FlaskServer.trade_redirect stFresh
        [("request_token", "rt123"), ("status", "failed")]
        (Except.ok sd0)).2.1.body.getStrField "status") = some "success" :=
  ⟨rfl, rfl, rfl⟩

/-- C2 amended: the MCP server's callback (main.py `trade_redirect`)
rejects a redirect whose `status` is truthy and not case-insensitively
"success" with a 400 error, makes no broker call, and leaves the kite
access token unmutated; the Flask server's callback ignores the `status`
field entirely and attempts the exchange whenever a request token is
present and the instance exists. -/
theorem redirect_status_guard_amended :
    (∀ (st : MainState) (rt : String) (action type : Option String) (s : String)
       (gen : Except String SessionData),
       s ≠ "" → lowerStr s ≠ "success" →
       (MainServer.trade_redirect st rt action type (some s) gen).2.2 = [] ∧
       (MainServer.trade_redirect st rt action type (some s) gen).2.1 =
         ⟨400, Json.obj [("status", Json.str "error"),
            ("message", Json.str ("Login was not successful. Status: " ++ s))]⟩ ∧
       (MainServer.trade_redirect st rt action type (some s) gen).1.kite = st.kite) ∧
    (∀ (st : ServerState) (k : Kite) (rt s : String)
       (gen : Except String SessionData),
       st.global_kite = some k → rt ≠ "" →
       (FlaskServer.trade_redirect st [("request_token", rt), ("status", s)]
           gen).2.2 = [BrokerOp.generate_session]) := by
  constructor
  · intro st rt action type s gen hs hl
    have hse : s.isEmpty = false := isEmpty_false_of_ne s hs
    have hbe : (lowerStr s == "success") = false := by
      cases hb : lowerStr s == "success"
      · rfl
      · exact absurd (eq_of_beq hb) hl
    refine ⟨?_, ?_, ?_⟩ <;>
      simp [MainServer.trade_redirect, strTruthy, hse, hbe]
  · intro st k rt s gen hk hrt
    have hre : rt.isEmpty = false := isEmpty_false_of_ne rt hrt
    cases gen <;>
      simp [FlaskServer.trade_redirect, lookupAssoc, strTruthy, hre, hk]

/-- Witness for the amended C2 at a concrete failed redirect. -/
theorem redirect_status_guard_amended_witness :
    (MainServer.trade_redirect mainSt0 "rt123" none none (some "Failed")
        (Except.ok sd0)).2.2 = [] ∧
    (MainServer.trade_redirect mainSt0 "rt123" none none (some "Failed")
        (Except.ok sd0)).1.kite = mainSt0.kite :=
  ⟨(redirect_status_guard_amended.1 mainSt0 "rt123" none none "Failed"
      (Except.ok sd0) (by decide) (by decide)).1,
   (redirect_status_guard_amended.1 mainSt0 "rt123" none none "Failed"
      (Except.ok sd0) (by decide) (by decide)).2.2⟩

/-- C3 counterexample: in a state whose session holds the token set by
the last successful exchange, a later `GET /login` replaces the session
with a fresh unauthenticated instance, so the access token does not
remain the one set by the exchange. -/
theorem login_resets_session_counterexample :
    stAuth.global_kite.map Kite.access_token = some (some "tok_old") ∧
    (step stAuth Call.login).1.global_kite.map Kite.access_token = some none ∧
    kiteAuthenticated (step stAuth Call.login).1.global_kite = false :=
  ⟨rfl, rfl, rfl⟩

/-- C3 amended: no privileged or auth-check endpoint ever changes the
server state, so across any sequence of such calls the session and its
access token persist unchanged; the only routes that write the session
are login, the redirect callback, token set and token renew — and
`GET /login` (with an api key configured) in fact replaces the session
with a fresh instance whose access token is cleared. -/
theorem session_write_discipline_amended :
    (∀ (st : ServerState) (c : Call), c.isSessionWriter = false →
      (step st c).1 = st) ∧
    (∀ (st : ServerState) (cs : List Call),
      (∀ c ∈ cs, c.isSessionWriter = false) → run st cs = st) ∧
    (∀ st : ServerState, strTruthy st.api_key = true →
      (step st Call.login).1.global_kite = some (KiteConnect st.api_key) ∧
      kiteAuthenticated (step st Call.login).1.global_kite = false) := by
  have key : ∀ (st : ServerState) (c : Call), c.isSessionWriter = false →
      (step st c).1 = st := by
    intro st c hc
    cases c <;> simp [Call.isSessionWriter] at hc <;>
      first
        | rfl
        | (simp only [step, FlaskServer.get_profile, FlaskServer.get_margins,
            FlaskServer.get_holdings, FlaskServer.get_positions,
            FlaskServer.convert_position, FlaskServer.place_order,
            FlaskServer.modify_order, FlaskServer.cancel_order,
            FlaskServer.exit_order, FlaskServer.get_trades,
            FlaskServer.place_gtt, FlaskServer.delete_gtt,
            FlaskServer.get_historical_data]
           repeat' split <;> try rfl)
  refine ⟨key, ?_, ?_⟩
  · intro st cs h
    induction cs generalizing st with
    | nil => rfl
    | cons c cs ih =>
      have h1 : (step st c).1 = st := key st c (h c (by simp))
      show run (step st c).1 cs = st
      rw [h1]
      exact ih st fun d hd => h d (by simp [hd])
  · intro st h
    have hstep : step st Call.login =
        ({ st with global_kite := some (KiteConnect st.api_key) },
          ⟨200, Json.obj [("status", Json.str "success"),
            ("login_url", Json.str (KiteConnect st.api_key).login_url)]⟩, []) := by
      simp [step, FlaskServer.login, h]
    rw [hstep]
    exact ⟨rfl, rfl⟩

/-- Witness for the amended C3: a read-only call sequence preserves the
authenticated state, and login resets the instance. -/
theorem session_write_discipline_amended_witness :
    run stAuth [Call.check_auth, Call.profile (Except.ok (Json.str "p")),
        Call.holdings (Except.error "boom")] = stAuth ∧
    (step stAuth Call.login).1.global_kite = some (KiteConnect (some "key")) :=
  ⟨session_write_discipline_amended.2.1 stAuth
      [Call.check_auth, Call.profile (Except.ok (Json.str "p")),
        Call.holdings (Except.error "boom")]
      (by intro c hc; fin_cases hc <;> rfl),
   (session_write_discipline_amended.2.2 stAuth rfl).1⟩

/-- C4 counterexample: supplying the empty string as token still yields
the success envelope, but an immediately following privileged call does
not pass the gate and never reaches the broker. -/
theorem set_empty_token_gate_counterexample :
    (FlaskServer.set_access_token stInit (some [("access_token", "")])).2.1 =
      ⟨200, okMsgEnv "Access token set successfully."⟩ ∧
    FlaskServer.get_profile
        (FlaskServer.set_access_token stInit (some [("access_token", "")])).1
        (Except.ok (Json.str "profile")) =
      ((FlaskServer.set_access_token stInit (some [("access_token", "")])).1,
        authResp, []) :=
  ⟨rfl, rfl⟩

/-- C4 amended: for every non-empty token string, the set-access-token
operation unconditionally overwrites the session token (creating the
instance first when absent), makes no broker call, and returns the
success envelope; an immediately following privileged operation then
passes the gate and reaches the broker holding exactly that token. -/
theorem set_access_token_amended (st : ServerState) (tok : String)
    (h : tok ≠ "") :
    (FlaskServer.set_access_token st (some [("access_token", tok)])).2.1 =
      ⟨200, okMsgEnv "Access token set successfully."⟩ ∧
    (FlaskServer.set_access_token st (some [("access_token", tok)])).2.2 = [] ∧
    ((FlaskServer.set_access_token st (some [("access_token", tok)])).1.global_kite.map
        Kite.access_token) = some (some tok) ∧
    (st.global_kite = none →
      (FlaskServer.set_access_token st (some [("access_token", tok)])).1.global_kite =
        some ((KiteConnect st.api_key).set_access_token tok)) ∧
    FlaskServer.check_authentication
        (FlaskServer.set_access_token st (some [("access_token", tok)])).1 = none ∧
    (∀ d : Json, FlaskServer.get_profile
        (FlaskServer.set_access_token st (some [("access_token", tok)])).1
        (Except.ok d) =
      ((FlaskServer.set_access_token st (some [("access_token", tok)])).1,
        ⟨200, okDataEnv d⟩, [BrokerOp.profile])) := by
  have hne : tok.isEmpty = false := isEmpty_false_of_ne tok h
  obtain ⟨ak, gk⟩ := st
  refine ⟨?_, ?_, ?_, ?_, ?_, ?_⟩ <;> cases gk <;>
    simp [FlaskServer.set_access_token, FlaskServer.check_authentication,
      FlaskServer.get_profile, lookupAssoc, dictTruthy, strTruthy,
      kiteAuthenticated, Kite.set_access_token, KiteConnect, hne]

/-- Witness for the amended C4: set a fresh token on the empty state,
then reach the broker through the gate. -/
theorem set_access_token_amended_witness :
    ((FlaskServer.set_access_token stInit (some [("access_token", "newtok")])).1.global_kite.map
        Kite.access_token) = some (some "newtok") ∧
    FlaskServer.get_profile
        (FlaskServer.set_access_token stInit (some [("access_token", "newtok")])).1
        (Except.ok (Json.str "profile")) =
      ((FlaskServer.set_access_token stInit (some [("access_token", "newtok")])).1,
        ⟨200, okDataEnv (Json.str "profile")⟩, [BrokerOp.profile]) :=
  ⟨(set_access_token_amended stInit "newtok" (by decide)).2.2.1,
   (set_access_token_amended stInit "newtok" (by decide)).2.2.2.2.2 (Json.str "profile")⟩

/-- C5: with a `refresh_token` supplied in the body, the renew operation
fails with the not-initialized error (and no broker call) whenever no
session instance exists; when one exists, a successful broker exchange
replaces the access token with the newly returned one, and a failed
exchange returns an error envelope and leaves the state unchanged. -/
theorem renew_access_token_contract (st : ServerState)
    (params : List (String × String)) (rt : String)
    (renew : Except String SessionData)
    (hrt : lookupAssoc params "refresh_token" = some rt) :
    (st.global_kite = none →
      FlaskServer.renew_access_token st (some params) renew =
        (st, ⟨500, errEnv "KiteConnect instance not initialized."⟩, [])) ∧
    (∀ k, st.global_kite = some k →
      (∀ sd, renew = Except.ok sd →
        FlaskServer.renew_access_token st (some params) renew =
          ({ st with global_kite := some (k.set_access_token sd.access_token) },
            ⟨200, okDataEnv sd.toJson⟩, [BrokerOp.renew_token])) ∧
      (∀ e, renew = Except.error e →
        FlaskServer.renew_access_token st (some params) renew =
          (st, ⟨500, errEnv e⟩, [BrokerOp.renew_token]))) := by
  have hpne : params.isEmpty = false := by
    cases params with
    | nil => simp [lookupAssoc] at hrt
    | cons a l => rfl
  constructor
  · intro hnone
    simp [FlaskServer.renew_access_token, dictTruthy, hpne, hrt, hnone]
  · intro k hk
    constructor
    · intro sd hsd
      simp [FlaskServer.renew_access_token, dictTruthy, hpne, hrt, hk, hsd]
    · intro e he
      simp [FlaskServer.renew_access_token, dictTruthy, hpne, hrt, hk, he]

/-- Witness for C5: before any session exists the renew fails with the
not-initialized error; on an existing session a successful exchange
installs the new token. -/
theorem renew_access_token_contract_witness :
    FlaskServer.renew_access_token stInit (some [("refresh_token", "r1")])
        (Except.ok sd0) =
      (stInit, ⟨500, errEnv "KiteConnect instance not initialized."⟩, []) ∧
    FlaskServer.renew_access_token stAuth (some [("refresh_token", "r1")])
        (Except.ok sd0) =
      ({ stAuth with global_kite := some (kAuth.set_access_token sd0.access_token) },
        ⟨200, okDataEnv sd0.toJson⟩, [BrokerOp.renew_token]) :=
  ⟨(renew_access_token_contract stInit [("refresh_token", "r1")] "r1"
      (Except.ok sd0) rfl).1 rfl,
   ((renew_access_token_contract stAuth [("refresh_token", "r1")] "r1"
      (Except.ok sd0) rfl).2 kAuth rfl).1 sd0 rfl⟩

/-- C6: a date string matching `%Y-%m-%d %H:%M:%S` is parsed as a full
timestamp; otherwise one matching `%Y-%m-%d` is parsed as a date-only
value; when neither matches, the historical-data route (authenticated,
non-empty body) returns a parsing-error envelope and makes no broker
call; and when the timestamp parse succeeds the broker is reached with
the converted value. -/
theorem historical_date_parsing (s : String) :
    (∀ dt, strptime_YmdHMS s = some dt →
      FlaskServer.convert_date_field s = Except.ok (DateVal.timestamp dt)) ∧
    (strptime_YmdHMS s = none → ∀ d, strptime_Ymd s = some d →
      FlaskServer.convert_date_field s = Except.ok (DateVal.dateOnly d)) ∧
    (strptime_YmdHMS s = none → strptime_Ymd s = none →
      ∀ (st : ServerState) (b : Except String Json)
        (extra : List (String × String)),
        FlaskServer.check_authentication st = none →
        FlaskServer.get_historical_data st (some (("from_date", s) :: extra)) b =
          (st, ⟨500, errEnv (FlaskServer.dateParseErrorMsg s)⟩, [])) ∧
    (∀ dt (d : Json) (st : ServerState), strptime_YmdHMS s = some dt →
      FlaskServer.check_authentication st = none →
      FlaskServer.get_historical_data st (some [("from_date", s)])
          (Except.ok d) =
        (st, ⟨200, okDataEnv d⟩,
          [BrokerOp.historical_data
            [("from_date", ParamVal.date (DateVal.timestamp dt))]])) := by
  refine ⟨?_, ?_, ?_, ?_⟩
  · intro dt hdt
    simp [FlaskServer.convert_date_field, hdt]
  · intro h1 d h2
    simp [FlaskServer.convert_date_field, h1, h2]
  · intro h1 h2 st b extra hca
    simp [FlaskServer.get_historical_data, FlaskServer.convert_date_params,
      FlaskServer.convert_one_date, FlaskServer.convert_date_field,
      lookupAssoc, dictTruthy, hca, h1, h2]
  · intro dt d st hdt hca
    simp [FlaskServer.get_historical_data, FlaskServer.convert_date_params,
      FlaskServer.convert_one_date, FlaskServer.convert_date_field,
      lookupAssoc, updateAssoc, dictTruthy, hca, hdt]

/-- Witness for C6 at the three inputs named by the specification. -/
theorem historical_date_parsing_witness :
    FlaskServer.convert_date_field "2024-01-05 09:15:00" =
      Except.ok (DateVal.timestamp ⟨2024, 1, 5, 9, 15, 0⟩) ∧
    FlaskServer.convert_date_field "2024-01-05" =
      Except.ok (DateVal.dateOnly ⟨2024, 1, 5⟩) ∧
    FlaskServer.get_historical_data stAuth
        (some [("from_date", "2024-01-05T09:15"), ("to_date", "2024-01-06")])
        (Except.ok (Json.arr [])) =
      (stAuth,
        ⟨500, errEnv (FlaskServer.dateParseErrorMsg "2024-01-05T09:15")⟩, []) :=
  ⟨(historical_date_parsing "2024-01-05 09:15:00").1 ⟨2024, 1, 5, 9, 15, 0⟩
      (by decide),
   (historical_date_parsing "2024-01-05").2.1 (by decide) ⟨2024, 1, 5⟩ (by decide),
   (historical_date_parsing "2024-01-05T09:15").2.2.1 (by decide) (by decide)
      stAuth (Except.ok (Json.arr [])) [("to_date", "2024-01-06")] rfl⟩

/-- C7: for every route and method, `call_api` (hence every Tool Client
function, each of which is `call_api` at a fixed route as the second
block of conjuncts records) returns an HTTP-error JSON body verbatim,
and turns a refused connection into an error envelope whose message
contains "Connection Error". -/
theorem tool_client_error_envelopes :
    ∀ (endpoint method : String) (params : Option (List (String × String)))
      (json_data : Option Json),
    (∀ (code : Nat) (env : Json), 400 ≤ code → code < 600 →
      ToolClient.call_api endpoint method params json_data
          (ToolClient.HttpOutcome.response code (ToolClient.Body.jsonBody env)) =
        env) ∧
    (∃ m : String,
      ToolClient.call_api endpoint method params json_data
          ToolClient.HttpOutcome.connectionRefused =
        Json.obj [("status", Json.str "error"), ("message", Json.str m)] ∧
      strContains m "Connection Error" = true) ∧
    (∀ (outcome : ToolClient.HttpOutcome) (tok seg v oid : String)
       (par : Option String) (kwargs : Json) (tid : Nat),
      ToolClient.check_authentication_status outcome =
        ToolClient.call_api "/api/auth/check" "GET" none none outcome ∧
      ToolClient.set_access_token tok outcome =
        ToolClient.call_api "/api/auth/token/set" "POST" none
          (some (Json.obj [("access_token", Json.str tok)])) outcome ∧
      ToolClient.renew_access_token tok outcome =
        ToolClient.call_api "/api/auth/token/renew" "POST" none
          (some (Json.obj [("refresh_token", Json.str tok)])) outcome ∧
      ToolClient.get_profile outcome =
        ToolClient.call_api "/api/user/profile" "GET" none none outcome ∧
      ToolClient.get_margins (some seg) outcome =
        ToolClient.call_api "/api/user/margins" "GET"
          (if !seg.isEmpty then some [("segment", seg)] else none) none outcome ∧
      ToolClient.get_holdings outcome =
        ToolClient.call_api "/api/portfolio/holdings" "GET" none none outcome ∧
      ToolClient.get_positions outcome =
        ToolClient.call_api "/api/portfolio/positions" "GET" none none outcome ∧
      ToolClient.convert_position kwargs outcome =
        ToolClient.call_api "/api/portfolio/positions/convert" "PUT" none
          (some kwargs) outcome ∧
      ToolClient.place_order kwargs outcome =
        ToolClient.call_api "/api/orders/place" "POST" none (some kwargs) outcome ∧
      ToolClient.modify_order kwargs outcome =
        ToolClient.call_api "/api/orders/modify" "PUT" none (some kwargs) outcome ∧
      ToolClient.cancel_order v oid par outcome =
        ToolClient.call_api ("/api/orders/cancel/" ++ v ++ "/" ++ oid) "DELETE"
          (match par with
           | some p => if !p.isEmpty then some [("parent_order_id", p)] else none
           | none => none) none outcome ∧
      ToolClient.exit_order v oid par outcome =
        ToolClient.call_api ("/api/orders/exit/" ++ v ++ "/" ++ oid) "DELETE"
          (match par with
           | some p => if !p.isEmpty then some [("parent_order_id", p)] else none
           | none => none) none outcome ∧
      ToolClient.get_trades outcome =
        ToolClient.call_api "/api/trades" "GET" none none outcome ∧
      ToolClient.place_gtt kwargs outcome =
        ToolClient.call_api "/api/gtt/place" "POST" none (some kwargs) outcome ∧
      ToolClient.delete_gtt tid outcome =
        ToolClient.call_api ("/api/gtt/delete/" ++ toString tid) "DELETE" none
          none outcome ∧
      ToolClient.get_historical_data kwargs outcome =
        ToolClient.call_api "/api/market/historical" "POST" none (some kwargs)
          outcome) := by
  intro endpoint method params json_data
  refine ⟨?_, ?_, ?_⟩
  · intro code env h4 h6
    have hc : (400 ≤ code && code < 600) = true := by
      simp [h4, h6]
    simp [ToolClient.call_api, hc]
  · exact ⟨ToolClient.connectionErrorMessage (ToolClient.BASE_API_URL ++ endpoint),
      rfl, connectionErrorMessage_contains _⟩
  · intro outcome tok seg v oid par kwargs tid
    exact ⟨rfl, rfl, rfl, rfl, rfl, rfl, rfl, rfl, rfl, rfl, rfl, rfl, rfl,
      rfl, rfl, rfl⟩

/-- Witness for C7: a 401 error envelope is passed through verbatim, and
a refused connection yields the connection-error envelope. -/
theorem tool_client_error_envelopes_witness :
    ToolClient.call_api "/api/user/profile" "GET" none none
        (ToolClient.HttpOutcome.response 401
          (ToolClient.Body.jsonBody (errEnv authErrorMsg))) =
      errEnv authErrorMsg ∧
    strContains
        (((ToolClient.call_api "/api/user/profile" "GET" none none
            ToolClient.HttpOutcome.connectionRefused).getStrField
          "message").getD "") "Connection Error" = true :=
  ⟨(tool_client_error_envelopes "/api/user/profile" "GET" none none).1 401
      (errEnv authErrorMsg) (by decide) (by decide),
   by decide⟩

/-- C8 counterexample: a read timeout (a `Timeout` that is not a
`ConnectionError` in the requests hierarchy) is normalized by the final
`RequestException` branch into "Request failed: ...", a message that does
not contain "Connection Error" — not the connection-failure
classification the claim asserts for every timeout. -/
theorem read_timeout_not_connection_error :
    (ToolClient.call_api "/api/user/profile" "GET" none none
        (ToolClient.HttpOutcome.readTimeout
          "Read timed out. (read timeout=10)")).getStrField "message" =
      some "Request failed: Read timed out. (read timeout=10)" ∧
    strContains "Request failed: Read timed out. (read timeout=10)"
        "Connection Error" = false ∧
    ((ToolClient.call_api "/api/user/profile" "GET" none none
        ToolClient.HttpOutcome.connectionRefused).getStrField "message").map
        (fun m => strContains m "Connection Error") = some true :=
  ⟨rfl, by decide, by decide⟩

/-- C8 amended: every outbound Tool Client call carries a fixed
10-second timeout; a connect-phase timeout (`ConnectTimeout`, a
`ConnectionError` subclass) is classified exactly like a refused
connection, while a read timeout falls to the generic request-failure
branch and yields the `{status: error, message: "Request failed: ..."}`
envelope instead of the connection-failure message. -/
theorem tool_client_timeout_amended :
    ∀ (endpoint method : String) (params : Option (List (String × String)))
      (json_data : Option Json) (emsg : String),
    (ToolClient.call_api_request endpoint method params json_data).timeout_seconds =
      10 ∧
    ToolClient.call_api endpoint method params json_data
        ToolClient.HttpOutcome.connectTimeout =
      ToolClient.call_api endpoint method params json_data
        ToolClient.HttpOutcome.connectionRefused ∧
    ToolClient.call_api endpoint method params json_data
        (ToolClient.HttpOutcome.readTimeout emsg) =
      Json.obj [("status", Json.str "error"),
        ("message", Json.str ("Request failed: " ++ emsg))] := by
  intro endpoint method params json_data emsg
  exact ⟨rfl, rfl, rfl⟩

/-- C9 counterexample: after the main.py redirect handler has responded,
the request token is still held in the module-global
`stored_request_token` — the Login Request data is not discarded. -/
theorem redirect_data_persists_counterexample :
    (MainServer.trade_redirect mainSt0 "rt123" (some "basket") (some "login")
        (some "success") (Except.ok sd0)).1.stored_request_token ≠ none ∧
    (MainServer.trade_redirect mainSt0 "rt123" (some "basket") (some "login")
        (some "success") (Except.ok sd0)).1.stored_request_token =
      some "rt123" ∧
    (MainServer.trade_redirect mainSt0 "rt123" (some "basket") (some "login")
        (some "success") (Except.ok sd0)).1.stored_redirect_params =
      some ⟨some "basket", some "login", some "success", "rt123"⟩ :=
  ⟨by decide, rfl, rfl⟩

/-- C9 amended: every redirect triggers at most one exchange attempt,
but the request token and the redirect metadata are retained in the
process globals `stored_request_token` and `stored_redirect_params`
after the handler responds, whatever the outcome. -/
theorem redirect_storage_amended :
    ∀ (st : MainState) (rt : String) (action type status : Option String)
      (gen : Except String SessionData),
    (MainServer.trade_redirect st rt action type status gen).2.2.length ≤ 1 ∧
    (MainServer.trade_redirect st rt action type status gen).1.stored_request_token =
      some rt ∧
    (MainServer.trade_redirect st rt action type status gen).1.stored_redirect_params =
      some ⟨action, type, status, rt⟩ := by
  intro st rt action type status gen
  refine ⟨?_, ?_, ?_⟩ <;>
    (unfold MainServer.trade_redirect
     split
     · simp
     · cases gen <;> simp)
